import Mathlib

/-!
Shallow embedding of the CyberShield event ingestion, correlation and
live-notification pipeline: the in-memory storage (`src/server/storage.ts`,
class `MemStorage`), the analysis routes and WebSocket fan-out
(`src/unnamed/part_007`, `registerRoutes`), and the honeypot manager
(`src/server/honeypot/services.ts`, class `HoneypotManager`).

Conventions of the embedding:
* JavaScript `Map<number, T>` collections keyed by the auto-incremented id
  are modelled as `List T` in insertion order (`Array.from(map.values())`
  iterates in insertion order, and `map.set` on an existing key replaces
  in place, which corresponds to `List.map` with an id guard).
* `Date` fields (`createdAt`, `detectedAt`, `analyzedAt`, `updatedAt`) are
  omitted: no claim mentions timestamps.
* Numeric scores are `Nat` (the phishing score is an integer sum capped at
  100); the deepfake confidence is `ℚ` because the detector reports one
  decimal digit (`Math.round(confidence * 10) / 10`).
* The external collaborators (phishing classifier, deepfake detector,
  geolocation, email) are inputs to the correlation functions, per the
  spec's collaborator boundary; the email collaborator
  (`EmailAlertService.sendAttackAlert`) returns a `Bool` and never throws
  (it catches internally), which the embedding records as an effect.
* Side-effect ordering is made explicit: each operation returns, besides
  the new store, the list of effects (store writes, WebSocket broadcasts,
  email sends, stats updates) in the exact order the source performs them.
-/

namespace CyberShield

/-- Severity tiers used by threats, alerts and honeypot attacks. -/
inductive Severity
| low
| medium
| high
| critical
deriving DecidableEq, Repr

/-- Honeypot services (`src/server/honeypot/services.ts`). -/
inductive Service
| ssh
| http
| ftp
deriving DecidableEq, Repr

/-- Alert categories (`shared/schema.ts`: email | media | honeypot | system). -/
inductive Category
| email
| media
| honeypot
| system
deriving DecidableEq, Repr

/-- `attack.service.toUpperCase()` as used in the honeypot alert title. -/
def Service.toUpperCase : Service → String
| .ssh => "SSH"
| .http => "HTTP"
| .ftp => "FTP"

/-- Geolocation collaborator result (only the fields the core reads). -/
structure GeoLocation where
  country : String
  city : String
deriving DecidableEq, Repr

/-- A honeypot attack event (`HoneypotAttack` in `services.ts`). -/
structure HoneypotAttack where
  service : Service
  sourceIp : String
  attackType : String
  severity : Severity
  port : Nat
  payload : Option String
deriving DecidableEq, Repr

/-- Threat metadata: `{ analysisId, indicators }` for phishing threats,
`{ analysisId, anomalies }` for deepfake threats. -/
inductive ThreatMetadata
| phishingMeta (analysisId : Nat) (indicators : List String)
| deepfakeMeta (analysisId : Nat) (anomalies : List String)
deriving DecidableEq, Repr

/-- Alert metadata: `{ threatId, analysisId }` for email/media alerts,
`{ attack }` for honeypot alerts (part_007 attack listener). -/
inductive AlertMetadata
| analysisRef (threatId : Nat) (analysisId : Nat)
| attackRef (attack : HoneypotAttack)
deriving DecidableEq, Repr

/-- Stored threat record (`MemStorage.createThreat`). -/
structure Threat where
  id : Nat
  type : String
  severity : Severity
  source : String
  description : String
  metadata : ThreatMetadata
  status : String
deriving DecidableEq, Repr

/-- Stored alert record (`MemStorage.createAlert`). -/
structure Alert where
  id : Nat
  title : String
  description : String
  severity : Severity
  category : Category
  isRead : Bool
  metadata : AlertMetadata
deriving DecidableEq, Repr

/-- Stored phishing analysis record (`MemStorage.createPhishingAnalysis`). -/
structure PhishingAnalysis where
  id : Nat
  content : String
  score : Nat
  confidence : Nat
  suspiciousLinks : Nat
  indicators : List String
deriving DecidableEq, Repr

/-- Stored deepfake analysis record (`MemStorage.createDeepfakeAnalysis`). -/
structure DeepfakeAnalysis where
  id : Nat
  fileName : String
  fileType : String
  fileSize : Nat
  isDeepfake : Bool
  confidence : ℚ
  processingTime : ℚ
  anomalies : List String
deriving DecidableEq, Repr

/-- Stored honeypot log record (`MemStorage.createHoneypotLog`). -/
structure HoneypotLog where
  id : Nat
  service : Service
  sourceIp : String
  attackType : String
  severity : Severity
  port : Nat
  payload : String
  location : Option GeoLocation
deriving DecidableEq, Repr

/-- The SystemStats singleton (`shared/schema.ts` / `MemStorage`). -/
structure SystemStats where
  id : Nat
  activeThreats : Nat
  phishingBlocked : Nat
  deepfakesDetected : Nat
  honeypotHits : Nat
deriving DecidableEq, Repr

/-- `Partial<InsertSystemStats>` as passed to `updateSystemStats`. -/
structure StatsPatch where
  activeThreats : Option Nat
  phishingBlocked : Option Nat
  deepfakesDetected : Option Nat
  honeypotHits : Option Nat
deriving DecidableEq, Repr

/-- Spreading a partial patch over the current stats:
`{ ...this.systemStats, ...stats }`. -/
def applyPatch (stats : SystemStats) (p : StatsPatch) : SystemStats :=
  { id := stats.id
    activeThreats := p.activeThreats.getD stats.activeThreats
    phishingBlocked := p.phishingBlocked.getD stats.phishingBlocked
    deepfakesDetected := p.deepfakesDetected.getD stats.deepfakesDetected
    honeypotHits := p.honeypotHits.getD stats.honeypotHits }

/-- The in-memory store (`MemStorage` in `src/server/storage.ts`):
maps become insertion-ordered lists, plus the per-type id counters.
`systemStats` has type `SystemStats | undefined` in the source, hence
`Option`. -/
structure MemStorage where
  threats : List Threat
  phishingAnalyses : List PhishingAnalysis
  deepfakeAnalyses : List DeepfakeAnalysis
  honeypotLogs : List HoneypotLog
  alerts : List Alert
  systemStats : Option SystemStats
  currentThreatId : Nat
  currentPhishingId : Nat
  currentDeepfakeId : Nat
  currentHoneypotId : Nat
  currentAlertId : Nat
deriving DecidableEq, Repr

/-- The `MemStorage` constructor: empty maps, counters at 1, and the
seeded demo stats `{ activeThreats: 7, phishingBlocked: 142,
deepfakesDetected: 23, honeypotHits: 89 }`. -/
def initStorage : MemStorage :=
  { threats := []
    phishingAnalyses := []
    deepfakeAnalyses := []
    honeypotLogs := []
    alerts := []
    systemStats := some { id := 1, activeThreats := 7, phishingBlocked := 142,
                          deepfakesDetected := 23, honeypotHits := 89 }
    currentThreatId := 1
    currentPhishingId := 1
    currentDeepfakeId := 1
    currentHoneypotId := 1
    currentAlertId := 1 }

/-- Insert shape for `createThreat` (record without id/timestamp). -/
structure InsertThreat where
  type : String
  severity : Severity
  source : String
  description : String
  metadata : ThreatMetadata
  status : String
deriving DecidableEq, Repr

/-- `MemStorage.createThreat`. -/
def createThreat (s : MemStorage) (t : InsertThreat) : Threat × MemStorage :=
  let threat : Threat :=
    { id := s.currentThreatId, type := t.type, severity := t.severity,
      source := t.source, description := t.description,
      metadata := t.metadata, status := t.status }
  (threat, { s with threats := s.threats ++ [threat],
                    currentThreatId := s.currentThreatId + 1 })

/-- Insert shape for `createAlert`. -/
structure InsertAlert where
  title : String
  description : String
  severity : Severity
  category : Category
  isRead : Bool
  metadata : AlertMetadata
deriving DecidableEq, Repr

/-- `MemStorage.createAlert`. -/
def createAlert (s : MemStorage) (a : InsertAlert) : Alert × MemStorage :=
  let alert : Alert :=
    { id := s.currentAlertId, title := a.title, description := a.description,
      severity := a.severity, category := a.category, isRead := a.isRead,
      metadata := a.metadata }
  (alert, { s with alerts := s.alerts ++ [alert],
                   currentAlertId := s.currentAlertId + 1 })

/-- Insert shape for `createPhishingAnalysis`. -/
structure InsertPhishingAnalysis where
  content : String
  score : Nat
  confidence : Nat
  suspiciousLinks : Nat
  indicators : List String
deriving DecidableEq, Repr

/-- `MemStorage.createPhishingAnalysis`. -/
def createPhishingAnalysis (s : MemStorage) (a : InsertPhishingAnalysis) :
    PhishingAnalysis × MemStorage :=
  let analysis : PhishingAnalysis :=
    { id := s.currentPhishingId, content := a.content, score := a.score,
      confidence := a.confidence, suspiciousLinks := a.suspiciousLinks,
      indicators := a.indicators }
  (analysis, { s with phishingAnalyses := s.phishingAnalyses ++ [analysis],
                      currentPhishingId := s.currentPhishingId + 1 })

/-- Insert shape for `createDeepfakeAnalysis`. -/
structure InsertDeepfakeAnalysis where
  fileName : String
  fileType : String
  fileSize : Nat
  isDeepfake : Bool
  confidence : ℚ
  processingTime : ℚ
  anomalies : List String
deriving DecidableEq, Repr

/-- `MemStorage.createDeepfakeAnalysis`. -/
def createDeepfakeAnalysis (s : MemStorage) (a : InsertDeepfakeAnalysis) :
    DeepfakeAnalysis × MemStorage :=
  let analysis : DeepfakeAnalysis :=
    { id := s.currentDeepfakeId, fileName := a.fileName, fileType := a.fileType,
      fileSize := a.fileSize, isDeepfake := a.isDeepfake,
      confidence := a.confidence, processingTime := a.processingTime,
      anomalies := a.anomalies }
  (analysis, { s with deepfakeAnalyses := s.deepfakeAnalyses ++ [analysis],
                      currentDeepfakeId := s.currentDeepfakeId + 1 })

/-- Insert shape for `createHoneypotLog`. -/
structure InsertHoneypotLog where
  service : Service
  sourceIp : String
  attackType : String
  severity : Severity
  port : Nat
  payload : String
  location : Option GeoLocation
deriving DecidableEq, Repr

/-- `MemStorage.createHoneypotLog`. -/
def createHoneypotLog (s : MemStorage) (l : InsertHoneypotLog) :
    HoneypotLog × MemStorage :=
  let log : HoneypotLog :=
    { id := s.currentHoneypotId, service := l.service, sourceIp := l.sourceIp,
      attackType := l.attackType, severity := l.severity, port := l.port,
      payload := l.payload, location := l.location }
  (log, { s with honeypotLogs := s.honeypotLogs ++ [log],
                 currentHoneypotId := s.currentHoneypotId + 1 })

/-- `MemStorage.getSystemStats`. -/
def getSystemStats (s : MemStorage) : Option SystemStats :=
  s.systemStats

/-- `MemStorage.updateSystemStats`: spread the patch over the current stats,
or over zeroed stats when the singleton is absent. -/
def updateSystemStats (s : MemStorage) (p : StatsPatch) :
    SystemStats × MemStorage :=
  match s.systemStats with
  | some stats =>
      let st := applyPatch stats p
      (st, { s with systemStats := some st })
  | none =>
      let st := applyPatch { id := 1, activeThreats := 0, phishingBlocked := 0,
                             deepfakesDetected := 0, honeypotHits := 0 } p
      (st, { s with systemStats := some st })

/-- `MemStorage.markAlertAsRead`: set `isRead := true` on the alert with the
given id when present; a silent no-op otherwise (the source's
`if (alert) { ... }` has no else branch and the method returns `void`). -/
def markAlertAsRead (s : MemStorage) (id : Nat) : MemStorage :=
  { s with alerts := s.alerts.map (fun a => if a.id = id then { a with isRead := true } else a) }

/-- `MemStorage.markAllAlertsAsRead`. -/
def markAllAlertsAsRead (s : MemStorage) : MemStorage :=
  { s with alerts := s.alerts.map (fun a => { a with isRead := true }) }

/-- `getAlertCounts` return shape. -/
structure AlertCounts where
  critical : Nat
  high : Nat
  medium : Nat
  low : Nat
deriving DecidableEq, Repr

/-- `MemStorage.getAlertCounts`: filter the unread alerts, then count per
severity. -/
def getAlertCounts (s : MemStorage) : AlertCounts :=
  let unreadAlerts := s.alerts.filter (fun a => !a.isRead)
  { critical := (unreadAlerts.filter (fun a => a.severity == Severity.critical)).length
    high := (unreadAlerts.filter (fun a => a.severity == Severity.high)).length
    medium := (unreadAlerts.filter (fun a => a.severity == Severity.medium)).length
    low := (unreadAlerts.filter (fun a => a.severity == Severity.low)).length }

/-- `getHoneypotStats` return shape. -/
structure HoneypotStats where
  ssh : Nat
  http : Nat
  ftp : Nat
deriving DecidableEq, Repr

/-- `MemStorage.getHoneypotStats`: per-service counts of stored logs. -/
def getHoneypotStats (s : MemStorage) : HoneypotStats :=
  { ssh := (s.honeypotLogs.filter (fun l => l.service == Service.ssh)).length
    http := (s.honeypotLogs.filter (fun l => l.service == Service.http)).length
    ftp := (s.honeypotLogs.filter (fun l => l.service == Service.ftp)).length }

/-! ## Side effects and WebSocket messages

The routes file (`src/unnamed/part_007`) performs its side effects in a
fixed program order; each correlation function below returns the list of
effects in exactly that order, so ordering claims are decidable facts
about the returned trace. -/

/-- Messages sent through `broadcast` (`src/unnamed/part_007`). -/
inductive WsMessage
| newAlert (alert : Alert) (threat : Threat)
| honeypotAttackMsg (attack : HoneypotAttack) (alert : Option Alert)
| statsUpdateMsg (stats : SystemStats)
deriving DecidableEq, Repr

/-- One observable side effect of a correlation operation, in program
order. -/
inductive Effect
| storePhishing (a : PhishingAnalysis)
| storeDeepfake (a : DeepfakeAnalysis)
| storeThreat (t : Threat)
| storeAlert (a : Alert)
| storeHoneypotLog (l : HoneypotLog)
| wsBroadcast (m : WsMessage)
| sendEmail (ok : Bool)
| statsWrite (p : StatsPatch)
deriving DecidableEq, Repr

/-- Number of `new_alert` broadcasts in an effect trace. -/
def countNewAlertBroadcasts (eff : List Effect) : Nat :=
  eff.countP (fun e => match e with
    | .wsBroadcast (.newAlert _ _) => true
    | _ => false)

/-- Number of alert-record insertions in an effect trace. -/
def countStoreAlert (eff : List Effect) : Nat :=
  eff.countP (fun e => match e with
    | .storeAlert _ => true
    | _ => false)

/-- Number of honeypot-log insertions in an effect trace. -/
def countStoreLog (eff : List Effect) : Nat :=
  eff.countP (fun e => match e with
    | .storeHoneypotLog _ => true
    | _ => false)

/-- Whether an effect trace contains any broadcast at all. -/
def hasBroadcast (eff : List Effect) : Bool :=
  eff.any (fun e => match e with
    | .wsBroadcast _ => true
    | _ => false)

/-- Scanning helper: `true` iff every `new_alert` broadcast in the trace is
preceded by a stats write (the accumulator records whether a stats write
has been seen). -/
def statsBeforeNewAlertAux : Bool → List Effect → Bool
| _, [] => true
| _, .statsWrite _ :: rest => statsBeforeNewAlertAux true rest
| seen, .wsBroadcast (.newAlert _ _) :: rest => seen && statsBeforeNewAlertAux seen rest
| seen, _ :: rest => statsBeforeNewAlertAux seen rest

/-- The ordering contract claimed by the spec: the SystemStats update
precedes every `new_alert` broadcast of the trace. -/
def statsBeforeNewAlertBroadcast (eff : List Effect) : Bool :=
  statsBeforeNewAlertAux false eff

/-- Abstract shape of an effect, for stating trace-order properties. -/
inductive EffectKind
| storePhishingK
| storeDeepfakeK
| storeThreatK
| storeAlertK
| storeHoneypotLogK
| broadcastK
| sendEmailK
| statsWriteK
deriving DecidableEq, Repr

/-- The shape of an effect. -/
def Effect.kind : Effect → EffectKind
| .storePhishing _ => .storePhishingK
| .storeDeepfake _ => .storeDeepfakeK
| .storeThreat _ => .storeThreatK
| .storeAlert _ => .storeAlertK
| .storeHoneypotLog _ => .storeHoneypotLogK
| .wsBroadcast _ => .broadcastK
| .sendEmail _ => .sendEmailK
| .statsWrite _ => .statsWriteK

/-! ## Phishing analysis route (`app.post('/api/analyze/email')`) -/

/-- The phishing classifier collaborator's result
(`PhishingDetector.analyzeEmail`). The detector is deterministic keyword
scoring; the routes consume only this result, so it is a parameter of the
route embedding, per the spec's classifier-collaborator boundary. -/
structure PhishingDetectionResult where
  score : Nat
  confidence : Nat
  suspiciousLinks : Nat
  indicators : List String
deriving DecidableEq, Repr

/-- The request body's `content` field as JSON: absent/falsy, present but
not a string, or a string (the source checks
`!content || typeof content !== 'string'`; the empty string is falsy). -/
inductive EmailBody
| missing
| nonString
| strContent (content : String)
deriving DecidableEq, Repr

/-- Route response for the email analysis endpoint. -/
inductive EmailResp
| badRequest
| okJson (r : PhishingDetectionResult)
deriving DecidableEq, Repr

/-- `app.post('/api/analyze/email')` from `src/unnamed/part_007`:
validate content, store the analysis, and when `result.score >= 70`
create a Threat (severity `critical` iff `score >= 90`), create an Alert,
broadcast `new_alert`, and only then increment `phishingBlocked` and
`activeThreats` (guarded by `if (stats)`). -/
def analyzeEmailRoute (body : EmailBody) (result : PhishingDetectionResult)
    (s : MemStorage) : EmailResp × MemStorage × List Effect :=
  match body with
  | .missing => (.badRequest, s, [])
  | .nonString => (.badRequest, s, [])
  | .strContent content =>
    if content = "" then (.badRequest, s, [])
    else
      let (analysis, s1) := createPhishingAnalysis s
        { content := content, score := result.score,
          confidence := result.confidence,
          suspiciousLinks := result.suspiciousLinks,
          indicators := result.indicators }
      if 70 ≤ result.score then
        let (threat, s2) := createThreat s1
          { type := "phishing"
            severity := if 90 ≤ result.score then Severity.critical else Severity.high
            source := "email_analysis"
            description := s!"High-risk phishing email detected with {result.score}% confidence"
            metadata := .phishingMeta analysis.id result.indicators
            status := "active" }
        let (alert, s3) := createAlert s2
          { title := "High-Risk Phishing Email Detected"
            description := s!"Suspicious email content with {result.score}% phishing probability"
            severity := threat.severity
            category := .email
            isRead := false
            metadata := .analysisRef threat.id analysis.id }
        let broadcastEff := Effect.wsBroadcast (.newAlert alert threat)
        match getSystemStats s3 with
        | some stats =>
            let p : StatsPatch :=
              { activeThreats := some (stats.activeThreats + 1)
                phishingBlocked := some (stats.phishingBlocked + 1)
                deepfakesDetected := none
                honeypotHits := none }
            let (_, s4) := updateSystemStats s3 p
            (.okJson result, s4,
             [.storePhishing analysis, .storeThreat threat, .storeAlert alert,
              broadcastEff, .statsWrite p])
        | none =>
            (.okJson result, s3,
             [.storePhishing analysis, .storeThreat threat, .storeAlert alert,
              broadcastEff])
      else
        (.okJson result, s1, [.storePhishing analysis])

/-! ## Deepfake analysis route (`app.post('/api/analyze/deepfake')`) -/

/-- The deepfake detector collaborator's result
(`DeepfakeDetector.analyzeImage`/`analyzeVideo`). Its internals are
randomized; the routes consume only this result. The confidence is on the
source's 0..100 percent scale, with one decimal digit. -/
structure DeepfakeDetectionResult where
  isDeepfake : Bool
  confidence : ℚ
  processingTime : ℚ
  anomalies : List String
deriving DecidableEq, Repr

/-- The uploaded file's metadata (`req.file`). -/
structure FileUpload where
  originalname : String
  mimetype : String
  size : Nat
deriving DecidableEq, Repr

/-- `String.startsWith`, modelled structurally on the character list so
that it evaluates inside proofs. -/
def strStartsWith (s p : String) : Bool :=
  p.data.isPrefixOf s.data

/-- Route response for the deepfake analysis endpoint. -/
inductive DeepfakeResp
| badRequestNoFile
| badRequestUnsupported
| okJson (r : DeepfakeDetectionResult)
deriving DecidableEq, Repr

/-- `app.post('/api/analyze/deepfake')` from `src/unnamed/part_007`:
require a file of image or video mimetype, store the analysis, and when
`result.isDeepfake && result.confidence >= 80` create a Threat (severity
`critical` iff `confidence >= 95`), create an Alert, broadcast
`new_alert`, then increment `deepfakesDetected` and `activeThreats`. -/
def analyzeDeepfakeRoute (file : Option FileUpload)
    (result : DeepfakeDetectionResult) (s : MemStorage) :
    DeepfakeResp × MemStorage × List Effect :=
  match file with
  | none => (.badRequestNoFile, s, [])
  | some f =>
    if strStartsWith f.mimetype "image/" || strStartsWith f.mimetype "video/" then
      let (analysis, s1) := createDeepfakeAnalysis s
        { fileName := f.originalname, fileType := f.mimetype,
          fileSize := f.size, isDeepfake := result.isDeepfake,
          confidence := result.confidence,
          processingTime := result.processingTime,
          anomalies := result.anomalies }
      if result.isDeepfake = true ∧ (80 : ℚ) ≤ result.confidence then
        let (threat, s2) := createThreat s1
          { type := "deepfake"
            severity := if (95 : ℚ) ≤ result.confidence then Severity.critical else Severity.high
            source := "media_analysis"
            description := s!"Deepfake content detected with {result.confidence}% confidence"
            metadata := .deepfakeMeta analysis.id result.anomalies
            status := "active" }
        let (alert, s3) := createAlert s2
          { title := "Deepfake Content Detected"
            description := s!"AI-generated media detected with {result.confidence}% confidence level"
            severity := threat.severity
            category := .media
            isRead := false
            metadata := .analysisRef threat.id analysis.id }
        let broadcastEff := Effect.wsBroadcast (.newAlert alert threat)
        match getSystemStats s3 with
        | some stats =>
            let p : StatsPatch :=
              { activeThreats := some (stats.activeThreats + 1)
                phishingBlocked := none
                deepfakesDetected := some (stats.deepfakesDetected + 1)
                honeypotHits := none }
            let (_, s4) := updateSystemStats s3 p
            (.okJson result, s4,
             [.storeDeepfake analysis, .storeThreat threat, .storeAlert alert,
              broadcastEff, .statsWrite p])
        | none =>
            (.okJson result, s3,
             [.storeDeepfake analysis, .storeThreat threat, .storeAlert alert,
              broadcastEff])
      else
        (.okJson result, s1, [.storeDeepfake analysis])
    else (.badRequestUnsupported, s, [])

/-! ## Mark-alert-read route (`app.patch('/api/alerts/:id/read')`) -/

/-- Route response for the mark-read endpoint: `res.json({ success: true })`
on the normal path, `500` only if the storage call threw
(`markAlertAsRead` is total and never throws, so that branch is dead). -/
inductive MarkReadResp
| successTrue
| serverError
deriving DecidableEq, Repr

/-- `app.patch('/api/alerts/:id/read')`: call `markAlertAsRead` and answer
`{ success: true }` unconditionally — there is no existence check and no
404 path. -/
def markAlertReadRoute (s : MemStorage) (id : Nat) : MarkReadResp × MemStorage :=
  (.successTrue, markAlertAsRead s id)

/-! ## Honeypot pipeline

`HoneypotManager.logAttack` (`src/server/honeypot/services.ts`) stores the
log, sends a best-effort email for high/critical SSH attacks
(`sendAttackAlert` returns a `Bool` and catches internally, so the email
outcome is a parameter, not an exception), and increments `honeypotHits`;
the manager then emits the attack, and the listener registered in
`src/unnamed/part_007` (`honeypotManager.on('attack')`) creates an Alert
for high/critical attacks and broadcasts. -/

/-- `HoneypotManager.logAttack`: geolocate (collaborator result passed in;
`getLocation` returns `null` on failure, never throws), store the log,
email for high/critical SSH attacks, then increment `honeypotHits`. -/
def logAttack (s : MemStorage) (attack : HoneypotAttack)
    (location : Option GeoLocation) (emailOk : Bool) :
    MemStorage × List Effect :=
  let (log, s1) := createHoneypotLog s
    { service := attack.service, sourceIp := attack.sourceIp,
      attackType := attack.attackType, severity := attack.severity,
      port := attack.port, payload := attack.payload.getD "",
      location := location }
  let emailEff : List Effect :=
    if attack.service = Service.ssh ∧
        (attack.severity = Severity.high ∨ attack.severity = Severity.critical) then
      [.sendEmail emailOk]
    else []
  match getSystemStats s1 with
  | some stats =>
      let p : StatsPatch :=
        { activeThreats := none, phishingBlocked := none,
          deepfakesDetected := none,
          honeypotHits := some (stats.honeypotHits + 1) }
      let (_, s2) := updateSystemStats s1 p
      (s2, [.storeHoneypotLog log] ++ emailEff ++ [.statsWrite p])
  | none => (s1, [.storeHoneypotLog log] ++ emailEff)

/-- The `honeypotManager.on('attack')` listener from `src/unnamed/part_007`:
create an Alert and broadcast it with the attack when the severity is
high or critical, otherwise broadcast the raw attack alone. -/
def attackListener (s : MemStorage) (attack : HoneypotAttack) :
    MemStorage × List Effect :=
  if attack.severity = Severity.high ∨ attack.severity = Severity.critical then
    let (alert, s1) := createAlert s
      { title := s!"{attack.service.toUpperCase} Honeypot Attack"
        description := s!"{attack.attackType} from IP {attack.sourceIp}"
        severity := attack.severity
        category := .honeypot
        isRead := false
        metadata := .attackRef attack }
    (s1, [.storeAlert alert, .wsBroadcast (.honeypotAttackMsg attack (some alert))])
  else
    (s, [.wsBroadcast (.honeypotAttackMsg attack none)])

/-- One full honeypot submission: `logAttack` followed by
`this.emit('attack', attack)`, which runs the part_007 listener. -/
def submitHoneypotAttack (s : MemStorage) (attack : HoneypotAttack)
    (location : Option GeoLocation) (emailOk : Bool) :
    MemStorage × List Effect :=
  let (s1, e1) := logAttack s attack location emailOk
  let (s2, e2) := attackListener s1 attack
  (s2, e1 ++ e2)

/-- The severities each simulated generator can produce
(`simulateSSHAttack` draws from `['medium', 'high']`, `simulateHTTPAttack`
and `simulateFTPAttack` from `['low', 'medium']`). -/
def generatedSeverities : Service → List Severity
| .ssh => [.medium, .high]
| .http => [.low, .medium]
| .ftp => [.low, .medium]

/-- An attack the honeypot generators can actually emit: its severity is
drawn from its service's severity pool. -/
def GeneratedAttack (a : HoneypotAttack) : Prop :=
  a.severity ∈ generatedSeverities a.service

/-- Replay a sequence of honeypot submissions (attack, geolocation result,
email outcome) against a store. -/
def runAttacks (s : MemStorage) :
    List (HoneypotAttack × Option GeoLocation × Bool) → MemStorage
| [] => s
| (a, loc, ok) :: rest => runAttacks (submitHoneypotAttack s a loc ok).1 rest

/-! ## WebSocket notifier (`wss.on('connection')` / `broadcast`)

`broadcast` iterates over the `wsClients` set and calls `client.send` on
every client whose `readyState === WebSocket.OPEN`; clients are removed
from the set by the `'close'` handler (part_000 also removes on
`'error'`). Per the ws library, a send whose transport fails does not
throw into the `forEach` — it surfaces as an asynchronous error/close on
that socket, which removes the client from the set. The embedding makes
the per-client transport outcome explicit as a failure oracle. -/

/-- WebSocket ready states (`WebSocket.CONNECTING/OPEN/CLOSING/CLOSED`). -/
inductive WsReadyState
| connecting
| openState
| closing
| closedState
deriving DecidableEq, Repr

/-- A connected client: its identity and transport state. -/
structure WsClient where
  cid : Nat
  readyState : WsReadyState
deriving DecidableEq, Repr

/-- The client ids `broadcast` attempts delivery to: exactly the clients
currently in the OPEN state. -/
def broadcastAttempts (clients : List WsClient) : List Nat :=
  (clients.filter (fun c => c.readyState == WsReadyState.openState)).map WsClient.cid

/-- One `broadcast` call under a per-client transport-failure oracle
`fails`: the first component lists the clients the message reaches (the
open clients whose send did not fail), the second is the client set after
the ws close/error handlers ran (failed clients are deleted from
`wsClients`; all others keep their state). -/
def broadcastStep (fails : Nat → Bool) (clients : List WsClient) :
    List Nat × List WsClient :=
  ((clients.filter (fun c => c.readyState == WsReadyState.openState && !fails c.cid)).map WsClient.cid,
   clients.filter (fun c => !(c.readyState == WsReadyState.openState && fails c.cid)))

/-- Projection of an `AlertCounts` record at a severity. -/
def AlertCounts.get : AlertCounts → Severity → Nat
| c, .critical => c.critical
| c, .high => c.high
| c, .medium => c.medium
| c, .low => c.low

/-- Independent formulation of the per-severity unread-alert count, for
comparison with `getAlertCounts`. -/
def unreadCount (s : MemStorage) (sev : Severity) : Nat :=
  s.alerts.countP (fun a => !a.isRead && a.severity == sev)

/-! ## Theorems -/

/-- C1 counterexample: on a score-95 phishing submission and on a
high-confidence deepfake submission against the freshly constructed
store, the `new_alert` broadcast is emitted before the SystemStats
write — the trace violates the claimed stats-before-broadcast order. -/
theorem C1_counterexample_broadcast_before_stats :
    statsBeforeNewAlertBroadcast
      (analyzeEmailRoute (.strContent "urgent")
        { score := 95, confidence := 90, suspiciousLinks := 0, indicators := [] }
        initStorage).2.2 = false ∧
    statsBeforeNewAlertBroadcast
      (analyzeDeepfakeRoute
        (some { originalname := "a.png", mimetype := "image/png", size := 10 })
        { isDeepfake := true, confidence := 95, processingTime := 1, anomalies := [] }
        initStorage).2.2 = false := by
  exact ⟨rfl, rfl⟩

/-- C1 (amended): for every escalating phishing or deepfake submission the
Correlator's side effects happen in the order: store the analysis record,
create the derived Threat, create the Alert, broadcast `new_alert`, and
only then write the updated SystemStats counters — the broadcast precedes
the stats update, so the counters are not yet incremented when
`new_alert` is sent. -/
theorem C1_amended_store_create_broadcast_then_stats
    (content : String) (result : PhishingDetectionResult)
    (file : FileUpload) (dresult : DeepfakeDetectionResult)
    (s s' : MemStorage) (stats stats' : SystemStats)
    (hc : content ≠ "") (hstats : s.systemStats = some stats)
    (h70 : 70 ≤ result.score)
    (hmime : (strStartsWith file.mimetype "image/" || strStartsWith file.mimetype "video/") = true)
    (hstats' : s'.systemStats = some stats')
    (hdf : dresult.isDeepfake = true) (hconf : (80 : ℚ) ≤ dresult.confidence) :
    ((analyzeEmailRoute (.strContent content) result s).2.2.map Effect.kind
      = [.storePhishingK, .storeThreatK, .storeAlertK, .broadcastK, .statsWriteK]) ∧
    statsBeforeNewAlertBroadcast
      (analyzeEmailRoute (.strContent content) result s).2.2 = false ∧
    ((analyzeDeepfakeRoute (some file) dresult s').2.2.map Effect.kind
      = [.storeDeepfakeK, .storeThreatK, .storeAlertK, .broadcastK, .statsWriteK]) ∧
    statsBeforeNewAlertBroadcast
      (analyzeDeepfakeRoute (some file) dresult s').2.2 = false := by
  refine ⟨?_, ?_, ?_, ?_⟩ <;>
    simp [analyzeEmailRoute, analyzeDeepfakeRoute, hc, h70, hmime, hdf, hconf,
      createPhishingAnalysis, createDeepfakeAnalysis, createThreat, createAlert,
      getSystemStats, updateSystemStats, hstats, hstats', Effect.kind,
      statsBeforeNewAlertBroadcast, statsBeforeNewAlertAux]

/-- C1 amended witness: concrete escalating submissions instantiating the
ordering theorem. -/
theorem C1_amended_witness :
    ((analyzeEmailRoute (.strContent "urgent")
      { score := 95, confidence := 90, suspiciousLinks := 0, indicators := [] }
      initStorage).2.2.map Effect.kind
      = [.storePhishingK, .storeThreatK, .storeAlertK, .broadcastK, .statsWriteK]) ∧
    statsBeforeNewAlertBroadcast
      (analyzeEmailRoute (.strContent "urgent")
        { score := 95, confidence := 90, suspiciousLinks := 0, indicators := [] }
        initStorage).2.2 = false ∧
    ((analyzeDeepfakeRoute
        (some { originalname := "a.png", mimetype := "image/png", size := 10 })
        { isDeepfake := true, confidence := 95, processingTime := 1, anomalies := [] }
        initStorage).2.2.map Effect.kind
      = [.storeDeepfakeK, .storeThreatK, .storeAlertK, .broadcastK, .statsWriteK]) ∧
    statsBeforeNewAlertBroadcast
      (analyzeDeepfakeRoute
        (some { originalname := "a.png", mimetype := "image/png", size := 10 })
        { isDeepfake := true, confidence := 95, processingTime := 1, anomalies := [] }
        initStorage).2.2 = false :=
  C1_amended_store_create_broadcast_then_stats "urgent"
    { score := 95, confidence := 90, suspiciousLinks := 0, indicators := [] }
    { originalname := "a.png", mimetype := "image/png", size := 10 }
    { isDeepfake := true, confidence := 95, processingTime := 1, anomalies := [] }
    initStorage initStorage _ _
    (by decide) rfl (by decide) (by decide) rfl rfl (by norm_num)

/-- C3: a phishing submission escalates (one new Threat, one new Alert,
exactly one `new_alert` broadcast) iff the classifier score is at least
70; the Threat's severity is `critical` iff the score is at least 90 and
`high` otherwise; a score-95 submission always yields a critical Threat
and exactly one `new_alert` broadcast; and the PhishingAnalysis record is
stored regardless of score. -/
theorem C3_phishing_escalation_policy
    (content : String) (result : PhishingDetectionResult)
    (s : MemStorage) (stats : SystemStats)
    (hc : content ≠ "") (hstats : s.systemStats = some stats) :
    (analyzeEmailRoute (.strContent content) result s).2.1.phishingAnalyses.length
        = s.phishingAnalyses.length + 1 ∧
    ((70 ≤ result.score) ↔
      (analyzeEmailRoute (.strContent content) result s).2.1.threats.length
          = s.threats.length + 1) ∧
    ((70 ≤ result.score) ↔
      (analyzeEmailRoute (.strContent content) result s).2.1.alerts.length
          = s.alerts.length + 1) ∧
    ((70 ≤ result.score) ↔
      countNewAlertBroadcasts (analyzeEmailRoute (.strContent content) result s).2.2 = 1) ∧
    (result.score < 70 →
      (analyzeEmailRoute (.strContent content) result s).2.1.threats = s.threats ∧
      (analyzeEmailRoute (.strContent content) result s).2.1.alerts = s.alerts ∧
      countNewAlertBroadcasts (analyzeEmailRoute (.strContent content) result s).2.2 = 0) ∧
    (70 ≤ result.score → ∃ t,
      (analyzeEmailRoute (.strContent content) result s).2.1.threats = s.threats ++ [t] ∧
      (90 ≤ result.score → t.severity = Severity.critical) ∧
      (result.score < 90 → t.severity = Severity.high)) ∧
    (result.score = 95 → ∃ t,
      (analyzeEmailRoute (.strContent content) result s).2.1.threats = s.threats ++ [t] ∧
      t.severity = Severity.critical ∧
      countNewAlertBroadcasts (analyzeEmailRoute (.strContent content) result s).2.2 = 1) := by
  by_cases h70 : 70 ≤ result.score
  · by_cases h90 : 90 ≤ result.score
    · refine ⟨?_, ?_, ?_, ?_, ?_, ?_, ?_⟩ <;>
        simp [analyzeEmailRoute, hc, h70, h90, hstats,
          createPhishingAnalysis, createThreat, createAlert,
          getSystemStats, updateSystemStats, countNewAlertBroadcasts]
    · refine ⟨?_, ?_, ?_, ?_, ?_, ?_, ?_⟩ <;>
        simp [analyzeEmailRoute, hc, h70, h90, hstats,
          createPhishingAnalysis, createThreat, createAlert,
          getSystemStats, updateSystemStats, countNewAlertBroadcasts] <;>
        omega
  · refine ⟨?_, ?_, ?_, ?_, ?_, ?_, ?_⟩ <;>
      simp [analyzeEmailRoute, hc, h70, hstats,
        createPhishingAnalysis, createThreat, createAlert,
        getSystemStats, updateSystemStats, countNewAlertBroadcasts] <;>
      omega

/-- C3 witness: a score-95 submission against the fresh store. -/
theorem C3_phishing_escalation_policy_witness :
    ((70 : Nat) ≤ 95 ↔
      countNewAlertBroadcasts
        (analyzeEmailRoute (.strContent "urgent")
          { score := 95, confidence := 90, suspiciousLinks := 0, indicators := [] }
          initStorage).2.2 = 1) ∧
    ((95 : Nat) = 95 → ∃ t,
      (analyzeEmailRoute (.strContent "urgent")
        { score := 95, confidence := 90, suspiciousLinks := 0, indicators := [] }
        initStorage).2.1.threats = initStorage.threats ++ [t] ∧
      t.severity = Severity.critical ∧
      countNewAlertBroadcasts
        (analyzeEmailRoute (.strContent "urgent")
          { score := 95, confidence := 90, suspiciousLinks := 0, indicators := [] }
          initStorage).2.2 = 1) :=
  ⟨(C3_phishing_escalation_policy "urgent"
      { score := 95, confidence := 90, suspiciousLinks := 0, indicators := [] }
      initStorage _ (by decide) rfl).2.2.2.1,
   (C3_phishing_escalation_policy "urgent"
      { score := 95, confidence := 90, suspiciousLinks := 0, indicators := [] }
      initStorage _ (by decide) rfl).2.2.2.2.2.2⟩

/-- C5: a deepfake submission creates a Threat and an Alert iff
`isDeepfake` is true and the reported confidence is at least 80 on the
source's percent scale (the spec's 0.80 on its 0-1 scale), with severity
`critical` iff the confidence is at least 95 (spec's 0.95) and `high`
otherwise; below the threshold, or with `isDeepfake` false, the
DeepfakeAnalysis record is stored but no Threat or Alert is produced. -/
theorem C5_deepfake_escalation_policy
    (file : FileUpload) (result : DeepfakeDetectionResult)
    (s : MemStorage) (stats : SystemStats)
    (hmime : (strStartsWith file.mimetype "image/" || strStartsWith file.mimetype "video/") = true)
    (hstats : s.systemStats = some stats) :
    (analyzeDeepfakeRoute (some file) result s).2.1.deepfakeAnalyses.length
        = s.deepfakeAnalyses.length + 1 ∧
    ((result.isDeepfake = true ∧ (80 : ℚ) ≤ result.confidence) ↔
      (analyzeDeepfakeRoute (some file) result s).2.1.threats.length
          = s.threats.length + 1) ∧
    ((result.isDeepfake = true ∧ (80 : ℚ) ≤ result.confidence) ↔
      (analyzeDeepfakeRoute (some file) result s).2.1.alerts.length
          = s.alerts.length + 1) ∧
    ((result.isDeepfake = true ∧ (80 : ℚ) ≤ result.confidence) ↔
      countNewAlertBroadcasts (analyzeDeepfakeRoute (some file) result s).2.2 = 1) ∧
    (¬(result.isDeepfake = true ∧ (80 : ℚ) ≤ result.confidence) →
      (analyzeDeepfakeRoute (some file) result s).2.1.threats = s.threats ∧
      (analyzeDeepfakeRoute (some file) result s).2.1.alerts = s.alerts ∧
      countNewAlertBroadcasts (analyzeDeepfakeRoute (some file) result s).2.2 = 0) ∧
    (result.isDeepfake = true ∧ (80 : ℚ) ≤ result.confidence → ∃ t,
      (analyzeDeepfakeRoute (some file) result s).2.1.threats = s.threats ++ [t] ∧
      t.severity = (if (95 : ℚ) ≤ result.confidence then Severity.critical else Severity.high)) := by
  by_cases hdf : result.isDeepfake = true
  · by_cases h80 : (80 : ℚ) ≤ result.confidence
    · refine ⟨?_, ?_, ?_, ?_, ?_, ?_⟩ <;>
        simp [analyzeDeepfakeRoute, hmime, hdf, h80, hstats,
          createDeepfakeAnalysis, createThreat, createAlert,
          getSystemStats, updateSystemStats, countNewAlertBroadcasts]
    · refine ⟨?_, ?_, ?_, ?_, ?_, ?_⟩ <;>
        simp [analyzeDeepfakeRoute, hmime, hdf, h80, hstats,
          createDeepfakeAnalysis, createThreat, createAlert,
          getSystemStats, updateSystemStats, countNewAlertBroadcasts]
  · refine ⟨?_, ?_, ?_, ?_, ?_, ?_⟩ <;>
      simp [analyzeDeepfakeRoute, hmime, hdf, hstats,
        createDeepfakeAnalysis, createThreat, createAlert,
        getSystemStats, updateSystemStats, countNewAlertBroadcasts]

/-- C5 witness: an `isDeepfake` result at confidence 96 against the fresh
store escalates with a critical Threat. -/
theorem C5_deepfake_escalation_policy_witness :
    ∃ t,
      (analyzeDeepfakeRoute
        (some { originalname := "a.png", mimetype := "image/png", size := 10 })
        { isDeepfake := true, confidence := 96, processingTime := 1, anomalies := [] }
        initStorage).2.1.threats = initStorage.threats ++ [t] ∧
      t.severity = (if (95 : ℚ) ≤ (96 : ℚ) then Severity.critical else Severity.high) :=
  (C5_deepfake_escalation_policy
    { originalname := "a.png", mimetype := "image/png", size := 10 }
    { isDeepfake := true, confidence := 96, processingTime := 1, anomalies := [] }
    initStorage _ (by decide) rfl).2.2.2.2.2 ⟨rfl, by norm_num⟩

/-- C6: a phishing submission whose score is below 70 stores the
PhishingAnalysis record and nothing else: threats, alerts, deepfake
analyses, honeypot logs and every field of SystemStats are unchanged, and
the effect trace is a single analysis insertion — no broadcast, no alert,
no stats write. -/
theorem C6_low_score_frame
    (content : String) (result : PhishingDetectionResult) (s : MemStorage)
    (hc : content ≠ "") (hlow : result.score < 70) :
    (analyzeEmailRoute (.strContent content) result s).1 = .okJson result ∧
    (analyzeEmailRoute (.strContent content) result s).2.1.threats = s.threats ∧
    (analyzeEmailRoute (.strContent content) result s).2.1.alerts = s.alerts ∧
    (analyzeEmailRoute (.strContent content) result s).2.1.deepfakeAnalyses
        = s.deepfakeAnalyses ∧
    (analyzeEmailRoute (.strContent content) result s).2.1.honeypotLogs
        = s.honeypotLogs ∧
    (analyzeEmailRoute (.strContent content) result s).2.1.systemStats
        = s.systemStats ∧
    (analyzeEmailRoute (.strContent content) result s).2.1.phishingAnalyses.length
        = s.phishingAnalyses.length + 1 ∧
    hasBroadcast (analyzeEmailRoute (.strContent content) result s).2.2 = false ∧
    (∃ a, (analyzeEmailRoute (.strContent content) result s).2.2
        = [Effect.storePhishing a]) := by
  have h70 : ¬ 70 ≤ result.score := by omega
  refine ⟨?_, ?_, ?_, ?_, ?_, ?_, ?_, ?_, ?_⟩ <;>
    simp [analyzeEmailRoute, hc, h70, createPhishingAnalysis, hasBroadcast]

/-- C6 witness: a score-69 submission against the fresh store. -/
theorem C6_low_score_frame_witness :
    (analyzeEmailRoute (.strContent "hello")
      { score := 69, confidence := 80, suspiciousLinks := 0, indicators := [] }
      initStorage).2.1.systemStats = initStorage.systemStats ∧
    hasBroadcast (analyzeEmailRoute (.strContent "hello")
      { score := 69, confidence := 80, suspiciousLinks := 0, indicators := [] }
      initStorage).2.2 = false :=
  ⟨(C6_low_score_frame "hello"
      { score := 69, confidence := 80, suspiciousLinks := 0, indicators := [] }
      initStorage (by decide) (by decide)).2.2.2.2.2.1,
   (C6_low_score_frame "hello"
      { score := 69, confidence := 80, suspiciousLinks := 0, indicators := [] }
      initStorage (by decide) (by decide)).2.2.2.2.2.2.2.1⟩

/-- C9: a phishing submission with absent, non-string or empty content is
rejected with the 400 InvalidInput response before any store mutation —
the store (hence SystemStats) is unchanged and the effect trace is
empty — while every non-empty string content yields the 200 response. -/
theorem C9_invalid_input_rejected
    (result : PhishingDetectionResult) (s : MemStorage)
    (content : String) (hc : content ≠ "") :
    analyzeEmailRoute .missing result s = (.badRequest, s, []) ∧
    analyzeEmailRoute .nonString result s = (.badRequest, s, []) ∧
    analyzeEmailRoute (.strContent "") result s = (.badRequest, s, []) ∧
    (analyzeEmailRoute (.strContent content) result s).1 = .okJson result := by
  refine ⟨rfl, rfl, rfl, ?_⟩
  by_cases h70 : 70 ≤ result.score
  · cases hss : s.systemStats <;>
      simp [analyzeEmailRoute, hc, h70, createPhishingAnalysis, createThreat,
        createAlert, getSystemStats, updateSystemStats, hss]
  · simp [analyzeEmailRoute, hc, h70, createPhishingAnalysis]

/-- C9 witness: the empty and a non-empty submission against the fresh
store. -/
theorem C9_invalid_input_rejected_witness :
    analyzeEmailRoute (.strContent "")
      { score := 95, confidence := 90, suspiciousLinks := 0, indicators := [] }
      initStorage = (.badRequest, initStorage, []) ∧
    (analyzeEmailRoute (.strContent "hello")
      { score := 95, confidence := 90, suspiciousLinks := 0, indicators := [] }
      initStorage).1 = .okJson
        { score := 95, confidence := 90, suspiciousLinks := 0, indicators := [] } :=
  ⟨(C9_invalid_input_rejected
      { score := 95, confidence := 90, suspiciousLinks := 0, indicators := [] }
      initStorage "hello" (by decide)).2.2.1,
   (C9_invalid_input_rejected
      { score := 95, confidence := 90, suspiciousLinks := 0, indicators := [] }
      initStorage "hello" (by decide)).2.2.2⟩

/-- Helper: one full honeypot submission appends exactly one log record and
increments `honeypotHits` by exactly one — independently of the service,
the severity, the geolocation result and the email outcome. -/
theorem submitHoneypotAttack_step (s : MemStorage) (stats : SystemStats)
    (a : HoneypotAttack) (loc : Option GeoLocation) (ok : Bool)
    (hstats : s.systemStats = some stats) :
    (submitHoneypotAttack s a loc ok).1.systemStats
      = some { stats with honeypotHits := stats.honeypotHits + 1 } ∧
    (submitHoneypotAttack s a loc ok).1.honeypotLogs.length
      = s.honeypotLogs.length + 1 := by
  constructor <;>
    simp [submitHoneypotAttack, logAttack, attackListener, createHoneypotLog,
      createAlert, getSystemStats, updateSystemStats, applyPatch, hstats] <;>
    split_ifs <;>
    simp

/-- C2 counterexample: before any honeypot insertion the store holds zero
HoneypotAttack records yet `SystemStats.honeypotHits` is the seeded demo
value 89, not 0; and after one submitted attack it is 90, not 1. -/
theorem C2_counterexample_seeded_initial_stats :
    initStorage.honeypotLogs.length = 0 ∧
    initStorage.systemStats.map SystemStats.honeypotHits = some 89 ∧
    (89 : Nat) ≠ 0 ∧
    (runAttacks initStorage
      [({ service := Service.ssh, sourceIp := "203.0.113.7",
          attackType := "Brute Force", severity := Severity.high,
          port := 22, payload := none }, none, true)]).systemStats.map
        SystemStats.honeypotHits = some 90 ∧
    (90 : Nat) ≠ 1 := by
  exact ⟨rfl, rfl, by decide, rfl, by decide⟩

/-- C2 (amended): `SystemStats.honeypotHits` exceeds the number of
HoneypotAttack records ever inserted by exactly the seeded initial value
89: it is 89 before any insertion, and after any sequence of N submitted
honeypot attacks the store holds N records and `honeypotHits = 89 + N` —
each insertion accompanied by exactly one increment even when the email
collaborator reports failure (`sendAttackAlert` returns `false` rather
than throwing). -/
theorem C2_amended_honeypotHits_tracks_insertions_plus_seed
    (tr : List (HoneypotAttack × Option GeoLocation × Bool)) :
    (runAttacks initStorage tr).honeypotLogs.length = tr.length ∧
    ∃ stats, (runAttacks initStorage tr).systemStats = some stats ∧
      stats.honeypotHits = 89 + tr.length := by
  suffices h : ∀ (t : List (HoneypotAttack × Option GeoLocation × Bool))
      (s : MemStorage) (stats : SystemStats), s.systemStats = some stats →
      (runAttacks s t).honeypotLogs.length = s.honeypotLogs.length + t.length ∧
      ∃ stats2, (runAttacks s t).systemStats = some stats2 ∧
        stats2.honeypotHits = stats.honeypotHits + t.length by
    obtain ⟨h1, stats2, h2, h3⟩ := h tr initStorage _ rfl
    exact ⟨by simpa [initStorage] using h1, stats2, h2, by simpa [initStorage] using h3⟩
  intro t
  induction t with
  | nil => exact fun s stats hstats => ⟨by simp [runAttacks], stats, by simp [runAttacks, hstats]⟩
  | cons hd tl ih =>
    intro s stats hstats
    obtain ⟨a, loc, ok⟩ := hd
    obtain ⟨hstep1, hstep2⟩ := submitHoneypotAttack_step s stats a loc ok hstats
    obtain ⟨h1, stats2, h2, h3⟩ :=
      ih (submitHoneypotAttack s a loc ok).1 _ hstep1
    refine ⟨?_, stats2, ?_, ?_⟩
    · rw [hstep2] at h1
      simp only [runAttacks, List.length_cons]
      omega
    · simpa [runAttacks] using h2
    · simp only [List.length_cons]
      simp at h3
      omega

/-- C4: over the attacks the honeypot generators can produce (SSH draws
severity from {medium, high}; HTTP and FTP from {low, medium}), a
submission creates an Alert iff the service is ssh and the severity is
high or critical; every HTTP or FTP attack and every low/medium SSH
attack is logged (exactly one log insertion) but creates no Alert. -/
theorem C4_honeypot_escalation_policy (s : MemStorage) (a : HoneypotAttack)
    (loc : Option GeoLocation) (ok : Bool) (hgen : GeneratedAttack a) :
    countStoreLog (submitHoneypotAttack s a loc ok).2 = 1 ∧
    (submitHoneypotAttack s a loc ok).1.honeypotLogs.length
      = s.honeypotLogs.length + 1 ∧
    (countStoreAlert (submitHoneypotAttack s a loc ok).2 = 1
      ↔ a.service = Service.ssh ∧
          (a.severity = Severity.high ∨ a.severity = Severity.critical)) ∧
    (¬(a.service = Service.ssh ∧
          (a.severity = Severity.high ∨ a.severity = Severity.critical)) →
      countStoreAlert (submitHoneypotAttack s a loc ok).2 = 0 ∧
      (submitHoneypotAttack s a loc ok).1.alerts = s.alerts) := by
  obtain ⟨svc, ip, atype, sev, port, payload⟩ := a
  cases svc <;> cases sev <;>
    simp [GeneratedAttack, generatedSeverities] at hgen <;>
    cases hss : s.systemStats <;>
    refine ⟨?_, ?_, ?_, ?_⟩ <;>
    simp [submitHoneypotAttack, logAttack, attackListener, createHoneypotLog,
      createAlert, getSystemStats, updateSystemStats, hss,
      countStoreAlert, countStoreLog]

/-- C4 witness: a generated high-severity SSH attack escalates, a generated
low-severity HTTP attack does not. -/
theorem C4_honeypot_escalation_policy_witness :
    (countStoreAlert (submitHoneypotAttack initStorage
      { service := Service.ssh, sourceIp := "203.0.113.7",
        attackType := "Brute Force", severity := Severity.high,
        port := 22, payload := none } none true).2 = 1
      ↔ Service.ssh = Service.ssh ∧
          (Severity.high = Severity.high ∨ Severity.high = Severity.critical)) ∧
    (¬(Service.http = Service.ssh ∧
        (Severity.low = Severity.high ∨ Severity.low = Severity.critical)) →
      countStoreAlert (submitHoneypotAttack initStorage
        { service := Service.http, sourceIp := "198.51.100.2",
          attackType := "Web Crawler", severity := Severity.low,
          port := 80, payload := none } none true).2 = 0 ∧
      (submitHoneypotAttack initStorage
        { service := Service.http, sourceIp := "198.51.100.2",
          attackType := "Web Crawler", severity := Severity.low,
          port := 80, payload := none } none true).1.alerts
        = initStorage.alerts) :=
  ⟨(C4_honeypot_escalation_policy initStorage
      { service := Service.ssh, sourceIp := "203.0.113.7",
        attackType := "Brute Force", severity := Severity.high,
        port := 22, payload := none } none true
      (by simp [GeneratedAttack, generatedSeverities])).2.2.1,
   (C4_honeypot_escalation_policy initStorage
      { service := Service.http, sourceIp := "198.51.100.2",
        attackType := "Web Crawler", severity := Severity.low,
        port := 80, payload := none } none true
      (by simp [GeneratedAttack, generatedSeverities])).2.2.2⟩

/-- C7 counterexample: the store starts with no alerts, yet marking alert
id 1 as read answers `{ success: true }` with the store unchanged —
`markAlertAsRead` on an absent id is a silent no-op, not a NotFound
error. -/
theorem C7_counterexample_no_notfound_on_absent_id :
    initStorage.alerts = [] ∧
    markAlertReadRoute initStorage 1 = (MarkReadResp.successTrue, initStorage) :=
  ⟨rfl, rfl⟩

/-- C7 (amended): `markAlertRead` is idempotent — the second call on the
same id is the identity on the store, leaves every alert with that id at
`isRead = true`, and answers success rather than erroring; but an id not
present in the store is a silent no-op: the store is unchanged and the
route still answers `{ success: true }`, not NotFound. -/
theorem C7_amended_markAlertRead_idempotent_silent_noop
    (s : MemStorage) (id : Nat) :
    markAlertAsRead (markAlertAsRead s id) id = markAlertAsRead s id ∧
    (∀ a ∈ (markAlertAsRead s id).alerts, a.id = id → a.isRead = true) ∧
    (markAlertReadRoute (markAlertReadRoute s id).2 id).1 = MarkReadResp.successTrue ∧
    ((∀ a ∈ s.alerts, a.id ≠ id) →
      markAlertReadRoute s id = (MarkReadResp.successTrue, s)) := by
  refine ⟨?_, ?_, rfl, ?_⟩
  · simp only [markAlertAsRead, List.map_map]
    congr 1
    apply List.map_congr_left
    intro a _
    by_cases h : a.id = id <;> simp [h]
  · intro a ha hid
    simp only [markAlertAsRead, List.mem_map] at ha
    obtain ⟨b, _, rfl⟩ := ha
    by_cases h : b.id = id <;> simp [h] at hid ⊢
  · intro h
    have hmap : s.alerts.map
        (fun a => if a.id = id then { a with isRead := true } else a) = s.alerts := by
      conv_rhs => rw [← List.map_id s.alerts]
      apply List.map_congr_left
      intro a ha
      simp [h a ha]
    simp [markAlertReadRoute, markAlertAsRead, hmap]

/-- C7 amended witness: a store holding one unread alert with id 1, and
the absent-id case on the fresh store. -/
theorem C7_amended_witness :
    (∀ a ∈ (markAlertAsRead (createAlert initStorage
        { title := "t", description := "d", severity := Severity.high,
          category := Category.email, isRead := false,
          metadata := AlertMetadata.analysisRef 1 1 }).2 1).alerts,
      a.id = 1 → a.isRead = true) ∧
    ((∀ a ∈ initStorage.alerts, a.id ≠ 1) →
      markAlertReadRoute initStorage 1 = (MarkReadResp.successTrue, initStorage)) :=
  ⟨(C7_amended_markAlertRead_idempotent_silent_noop
      (createAlert initStorage
        { title := "t", description := "d", severity := Severity.high,
          category := Category.email, isRead := false,
          metadata := AlertMetadata.analysisRef 1 1 }).2 1).2.1,
   (C7_amended_markAlertRead_idempotent_silent_noop initStorage 1).2.2.2⟩

/-- C8: `broadcast` attempts delivery exactly to the subscribers currently
in the Open state; an open subscriber whose transport does not fail
receives the message no matter which other subscribers fail, a failing
open subscriber is removed from the active set, and — the client ids
being distinct — no subsequent broadcast attempts delivery to it. -/
theorem C8_broadcast_independent_delivery
    (fails : Nat → Bool) (clients : List WsClient) (c : WsClient)
    (hmem : c ∈ clients) (hopen : c.readyState = WsReadyState.openState)
    (hnodup : (clients.map WsClient.cid).Nodup) :
    broadcastAttempts clients =
      (clients.filter (fun x => x.readyState == WsReadyState.openState)).map WsClient.cid ∧
    (fails c.cid = false → c.cid ∈ (broadcastStep fails clients).1) ∧
    (fails c.cid = true →
      c ∉ (broadcastStep fails clients).2 ∧
      c.cid ∉ broadcastAttempts (broadcastStep fails clients).2 ∧
      ∀ g : Nat → Bool, c.cid ∉ (broadcastStep g (broadcastStep fails clients).2).1) := by
  refine ⟨rfl, ?_, ?_⟩
  · intro hf
    simp only [broadcastStep, List.mem_map]
    exact ⟨c, List.mem_filter.mpr ⟨hmem, by simp [hopen, hf]⟩, rfl⟩
  · intro hf
    have hnotin : c ∉ (broadcastStep fails clients).2 := by
      intro hin
      have := (List.mem_filter.mp hin).2
      simp [hopen, hf] at this
    have hkey : ∀ x ∈ (broadcastStep fails clients).2, x.cid ≠ c.cid := by
      intro x hx hxc
      have hxmem : x ∈ clients := (List.mem_filter.mp hx).1
      have hxeq : x = c :=
        List.inj_on_of_nodup_map hnodup hxmem hmem hxc
      exact hnotin (hxeq ▸ hx)
    refine ⟨hnotin, ?_, ?_⟩
    · intro hc
      simp only [broadcastAttempts, List.mem_map] at hc
      obtain ⟨x, hx, hxc⟩ := hc
      exact hkey x (List.mem_filter.mp hx).1 hxc
    · intro g hc
      simp only [broadcastStep, List.mem_map] at hc
      obtain ⟨x, hx, hxc⟩ := hc
      exact hkey x (List.mem_filter.mp hx).1 hxc

/-- C8 witness: two open clients and a closed one; client 2's transport
fails, client 1 still receives and client 2 is gone from later
broadcasts. -/
theorem C8_broadcast_independent_delivery_witness :
    ((fun n => n == 2) (1 : Nat) = false →
      (1 : Nat) ∈ (broadcastStep (fun n => n == 2)
        [{ cid := 1, readyState := WsReadyState.openState },
         { cid := 2, readyState := WsReadyState.openState },
         { cid := 3, readyState := WsReadyState.closedState }]).1) ∧
    ((fun n => n == 2) (2 : Nat) = true →
      ({ cid := 2, readyState := WsReadyState.openState } : WsClient) ∉
        (broadcastStep (fun n => n == 2)
          [{ cid := 1, readyState := WsReadyState.openState },
           { cid := 2, readyState := WsReadyState.openState },
           { cid := 3, readyState := WsReadyState.closedState }]).2 ∧
      (2 : Nat) ∉ broadcastAttempts (broadcastStep (fun n => n == 2)
          [{ cid := 1, readyState := WsReadyState.openState },
           { cid := 2, readyState := WsReadyState.openState },
           { cid := 3, readyState := WsReadyState.closedState }]).2 ∧
      ∀ g : Nat → Bool, (2 : Nat) ∉ (broadcastStep g ((broadcastStep (fun n => n == 2)
          [{ cid := 1, readyState := WsReadyState.openState },
           { cid := 2, readyState := WsReadyState.openState },
           { cid := 3, readyState := WsReadyState.closedState }]).2)).1) :=
  ⟨(C8_broadcast_independent_delivery (fun n => n == 2)
      [{ cid := 1, readyState := WsReadyState.openState },
       { cid := 2, readyState := WsReadyState.openState },
       { cid := 3, readyState := WsReadyState.closedState }]
      { cid := 1, readyState := WsReadyState.openState }
      (by simp) rfl (by simp)).2.1,
   (C8_broadcast_independent_delivery (fun n => n == 2)
      [{ cid := 1, readyState := WsReadyState.openState },
       { cid := 2, readyState := WsReadyState.openState },
       { cid := 3, readyState := WsReadyState.closedState }]
      { cid := 2, readyState := WsReadyState.openState }
      (by simp) rfl (by simp)).2.2⟩

/-- Helper: a double filter's length is a conjunctive count. -/
theorem length_filter_filter_eq_countP (l : List Alert) (p q : Alert → Bool) :
    ((l.filter p).filter q).length = l.countP (fun a => p a && q a) := by
  rw [← List.countP_eq_length_filter, List.countP_filter]
  exact List.countP_congr (fun x _ => by simp [Bool.and_comm])

/-- Helper: marking as read the unique unread holder of an id decreases the
unread count of its severity by one. -/
theorem countP_unread_mark_decrement (l : List Alert) (a : Alert)
    (hmem : a ∈ l) (hunread : a.isRead = false)
    (hunique : l.countP (fun b => b.id == a.id) = 1) :
    (l.map (fun b => if b.id = a.id then { b with isRead := true } else b)).countP
        (fun b => !b.isRead && b.severity == a.severity) + 1
      = l.countP (fun b => !b.isRead && b.severity == a.severity) := by
  induction l with
  | nil => cases hmem
  | cons x t ih =>
    rw [List.countP_cons] at hunique
    by_cases hx : x.id = a.id
    · have hxt : t.countP (fun b => b.id == a.id) = 0 := by
        rw [hx, beq_self_eq_true, if_pos rfl] at hunique
        omega
      have hax : a = x := by
        rcases List.mem_cons.mp hmem with h | h
        · exact h
        · exfalso
          have := List.countP_eq_zero.mp hxt a h
          simp at this
      have htail : t.map
          (fun b => if b.id = a.id then { b with isRead := true } else b) = t := by
        conv_rhs => rw [← List.map_id t]
        apply List.map_congr_left
        intro b hb
        have hbne := List.countP_eq_zero.mp hxt b hb
        simp at hbne
        simp [hbne]
      subst hax
      simp [List.countP_cons, htail, hunread, beq_self_eq_true]
    · have hax : a ≠ x := by
        intro h
        exact hx (by rw [← h])
      have hat : a ∈ t := by
        rcases List.mem_cons.mp hmem with h | h
        · exact absurd h hax
        · exact h
      have hct : t.countP (fun b => b.id == a.id) = 1 := by
        have hxb : (x.id == a.id) = false := by simp [hx]
        rw [hxb, if_neg (by simp)] at hunique
        omega
      have hrec := ih hat hct
      rw [List.map_cons, if_neg hx, List.countP_cons, List.countP_cons]
      omega

/-- C10: `getAlertCounts` returns, for each severity, exactly the number of
stored alerts with that severity whose `isRead` is false; consequently
marking an unread alert (the unique holder of its id) as read decreases
its severity's count by one. -/
theorem C10_getAlertCounts_counts_unread
    (s : MemStorage) (sev : Severity) (a : Alert)
    (hmem : a ∈ s.alerts) (hunread : a.isRead = false)
    (hunique : s.alerts.countP (fun b => b.id == a.id) = 1) :
    (getAlertCounts s).get sev = unreadCount s sev ∧
    (getAlertCounts (markAlertAsRead s a.id)).get a.severity + 1
      = (getAlertCounts s).get a.severity := by
  have hget : ∀ (st : MemStorage) (sv : Severity),
      (getAlertCounts st).get sv = unreadCount st sv := by
    intro st sv
    cases sv <;>
      · simp only [getAlertCounts, AlertCounts.get, unreadCount]
        exact length_filter_filter_eq_countP _ _ _
  refine ⟨hget s sev, ?_⟩
  rw [hget, hget]
  simpa [unreadCount, markAlertAsRead] using
    countP_unread_mark_decrement s.alerts a hmem hunread hunique

/-- C10 witness: a store holding a single unread high-severity alert. -/
theorem C10_getAlertCounts_counts_unread_witness :
    (getAlertCounts (createAlert initStorage
        { title := "t", description := "d", severity := Severity.high,
          category := Category.email, isRead := false,
          metadata := AlertMetadata.analysisRef 1 1 }).2).get Severity.low
      = unreadCount (createAlert initStorage
        { title := "t", description := "d", severity := Severity.high,
          category := Category.email, isRead := false,
          metadata := AlertMetadata.analysisRef 1 1 }).2 Severity.low ∧
    (getAlertCounts (markAlertAsRead (createAlert initStorage
        { title := "t", description := "d", severity := Severity.high,
          category := Category.email, isRead := false,
          metadata := AlertMetadata.analysisRef 1 1 }).2
        (createAlert initStorage
        { title := "t", description := "d", severity := Severity.high,
          category := Category.email, isRead := false,
          metadata := AlertMetadata.analysisRef 1 1 }).1.id)).get
        (createAlert initStorage
        { title := "t", description := "d", severity := Severity.high,
          category := Category.email, isRead := false,
          metadata := AlertMetadata.analysisRef 1 1 }).1.severity + 1
      = (getAlertCounts (createAlert initStorage
        { title := "t", description := "d", severity := Severity.high,
          category := Category.email, isRead := false,
          metadata := AlertMetadata.analysisRef 1 1 }).2).get
        (createAlert initStorage
        { title := "t", description := "d", severity := Severity.high,
          category := Category.email, isRead := false,
          metadata := AlertMetadata.analysisRef 1 1 }).1.severity :=
  C10_getAlertCounts_counts_unread
    (createAlert initStorage
      { title := "t", description := "d", severity := Severity.high,
        category := Category.email, isRead := false,
        metadata := AlertMetadata.analysisRef 1 1 }).2
    Severity.low
    (createAlert initStorage
      { title := "t", description := "d", severity := Severity.high,
        category := Category.email, isRead := false,
        metadata := AlertMetadata.analysisRef 1 1 }).1
    (by simp [createAlert, initStorage]) rfl
    (by simp [createAlert, initStorage])

end CyberShield
